import Mathlib

/-!
Verification of the temporal consistency analyzer
(`backend/utils/temporal_analyzer.py`).

The Python class `TemporalConsistencyAnalyzer` is shallowly embedded:

* Python floats become `ℚ`.  Decimal literals such as `0.03` are exact in
  `ℚ`, matching the decimal constants of the source.
* The three per-track dictionaries become association lists
  (`List (Nat × _)`), which, like Python dicts, preserve insertion order;
  `deque(maxlen = history_size)` becomes a list together with the
  capacity-respecting append `dequeAppend`.
* `time.time()` becomes an explicit `now : ℚ` argument.
* Methods that mutate `self` become functions `AnalyzerState → … → AnalyzerState`;
  `analyze_temporal_pattern`, which only reads `self`, is embedded as a
  function returning its result together with the (unchanged) state it
  threads, mirroring the absence of writes in the source body.
* Square roots (`np.std`, the denominator of the Pearson coefficient) are
  irrational in general; wherever the source compares a standard deviation
  with a nonnegative threshold the embedding compares the variance with the
  squared threshold, which is equivalent over the reals, and wherever the
  source divides by a standard deviation inside a ratio that cancels, the
  embedding computes the cancelled form.  Each such spot carries a comment.
* `np.corrcoef` on a zero-variance vector does not raise: it emits a
  runtime warning and returns NaN, so the source's bare `except` does not
  fire there.  NaN-able quantities are embedded as `Option ℚ` with `none`
  for NaN; every NaN comparison (`nan > t`, `nan < t`) is `False`, matching
  IEEE semantics used by Python.
-/

/-- First-match lookup in an association list, Python's `d[k]` / `k in d`. -/
def lookupD {α : Type} (d : List (Nat × α)) (k : Nat) : Option α :=
  match d with
  | [] => none
  | (k₂, v) :: rest => if k₂ = k then some v else lookupD rest k

/-- Python's `d[k] = v`: overwrite in place if the key exists, else append
at the end (dicts preserve insertion order). -/
def insertD {α : Type} (d : List (Nat × α)) (k : Nat) (v : α) : List (Nat × α) :=
  match d with
  | [] => [(k, v)]
  | (k₂, v₂) :: rest =>
      if k₂ = k then (k, v) :: rest else (k₂, v₂) :: insertD rest k v

/-- Python's `del d[k]`: remove the (first) binding of `k`. -/
def eraseD {α : Type} (d : List (Nat × α)) (k : Nat) : List (Nat × α) :=
  match d with
  | [] => []
  | (k₂, v) :: rest => if k₂ = k then rest else (k₂, v) :: eraseD rest k

/-- `np.mean` over a list of rationals (`0` on the empty list, where numpy
would warn and give NaN; the analyzer never takes the mean of an empty
score window). -/
def listMean (xs : List ℚ) : ℚ :=
  xs.sum / (xs.length : ℚ)

/-- `np.var`: population variance (`ddof = 0`). -/
def varP (xs : List ℚ) : ℚ :=
  ((xs.map fun x => (x - listMean xs) ^ 2).sum) / (xs.length : ℚ)

/-- `np.diff`: consecutive differences `x[i+1] - x[i]`. -/
def npDiff (xs : List ℚ) : List ℚ :=
  (xs.tail.zip xs).map fun p => p.1 - p.2

/-- Append to a `deque(maxlen)`: if the deque is full the oldest (front)
entry is dropped. -/
def dequeAppend {α : Type} (maxlen : Nat) (xs : List α) (x : α) : List α :=
  let ys := xs ++ [x]
  ys.drop (ys.length - maxlen)

/-- One `(real_score, fake_score)` entry of a score window. -/
structure ScoreEntry where
  real_score : ℚ
  fake_score : ℚ
deriving DecidableEq, Repr

/-- Constructor-time configuration of `TemporalConsistencyAnalyzer`. -/
structure Config where
  history_size : Nat
  score_variance_threshold : ℚ
  correlation_threshold : ℚ
  micro_movement_threshold : ℚ
  history_timeout : ℚ
deriving DecidableEq, Repr

/-- The constructor defaults. -/
def defaultConfig : Config :=
  { history_size := 5
    score_variance_threshold := 0.03
    correlation_threshold := 0.97
    micro_movement_threshold := 0.001
    history_timeout := 1 }

/-- The three per-track dictionaries of the analyzer. -/
structure AnalyzerState where
  score_history : List (Nat × List ScoreEntry)
  texture_history : List (Nat × List (List ℚ))
  timestamp_history : List (Nat × List ℚ)
deriving DecidableEq, Repr

/-- The freshly constructed analyzer: all three dictionaries empty. -/
def initState : AnalyzerState :=
  { score_history := [], texture_history := [], timestamp_history := [] }

/-- The score window of a track (`[]` when the track is unknown). -/
def scOf (s : AnalyzerState) (tid : Nat) : List ScoreEntry :=
  (lookupD s.score_history tid).getD []

/-- The texture window of a track (`[]` when the track is unknown). -/
def txOf (s : AnalyzerState) (tid : Nat) : List (List ℚ) :=
  (lookupD s.texture_history tid).getD []

/-- The timestamp window of a track (`[]` when the track is unknown). -/
def tsOf (s : AnalyzerState) (tid : Nat) : List ℚ :=
  (lookupD s.timestamp_history tid).getD []

/-- The `while` loop of `_clean_old_entries`: pop stale timestamps from the
front, popping the score and texture fronts alongside whenever those deques
are nonempty (`List.tail [] = []` is exactly "pop if nonempty"). -/
def cleanLoop (timeout now : ℚ) :
    List ℚ → List ScoreEntry → List (List ℚ) →
    List ℚ × List ScoreEntry × List (List ℚ)
  | [], sc, tx => ([], sc, tx)
  | t :: ts, sc, tx =>
      if now - t > timeout then cleanLoop timeout now ts sc.tail tx.tail
      else (t :: ts, sc, tx)

/-- `_clean_old_entries(track_id, current_time)`: no-op when the track has
no timestamp deque; otherwise run the eviction loop and write back each
deque that is present in its dictionary. -/
def clean_old_entries (cfg : Config) (s : AnalyzerState) (tid : Nat) (now : ℚ) :
    AnalyzerState :=
  match lookupD s.timestamp_history tid with
  | none => s
  | some ts =>
      let res := cleanLoop cfg.history_timeout now ts (scOf s tid) (txOf s tid)
      { score_history :=
          if (lookupD s.score_history tid).isSome then
            insertD s.score_history tid res.2.1
          else s.score_history
        texture_history :=
          if (lookupD s.texture_history tid).isSome then
            insertD s.texture_history tid res.2.2
          else s.texture_history
        timestamp_history := insertD s.timestamp_history tid res.1 }

/-- `update_history(track_id, real_score, fake_score, texture_features)`;
`now` stands for the `time.time()` call at the top of the method. -/
def update_history (cfg : Config) (s : AnalyzerState) (tid : Nat)
    (real_score fake_score : ℚ) (texture_features : Option (List ℚ)) (now : ℚ) :
    AnalyzerState :=
  -- initialize history for a new track
  let s₁ :=
    if (lookupD s.score_history tid).isSome then s
    else
      { score_history := insertD s.score_history tid []
        texture_history := insertD s.texture_history tid []
        timestamp_history := insertD s.timestamp_history tid [] }
  -- clean old entries
  let s₂ := clean_old_entries cfg s₁ tid now
  -- add the new entry
  let s₃ :=
    { s₂ with
      score_history :=
        insertD s₂.score_history tid
          (dequeAppend cfg.history_size (scOf s₂ tid)
            { real_score := real_score, fake_score := fake_score })
      timestamp_history :=
        insertD s₂.timestamp_history tid
          (dequeAppend cfg.history_size (tsOf s₂ tid) now) }
  match texture_features with
  | none => s₃
  | some tex =>
      { s₃ with
        texture_history :=
          insertD s₃.texture_history tid
            (dequeAppend cfg.history_size (txOf s₃ tid) tex) }

/-- `clear_track(track_id)`: delete the track's entry from each dictionary
in which it is present. -/
def clear_track (s : AnalyzerState) (tid : Nat) : AnalyzerState :=
  { score_history :=
      if (lookupD s.score_history tid).isSome then eraseD s.score_history tid
      else s.score_history
    texture_history :=
      if (lookupD s.texture_history tid).isSome then eraseD s.texture_history tid
      else s.texture_history
    timestamp_history :=
      if (lookupD s.timestamp_history tid).isSome then eraseD s.timestamp_history tid
      else s.timestamp_history }

/-- `clear_all()`. -/
def clear_all (_s : AnalyzerState) : AnalyzerState := initState

/-- `get_track_stability(track_id)`. -/
def get_track_stability (cfg : Config) (s : AnalyzerState) (tid : Nat) : ℚ :=
  match lookupD s.score_history tid with
  | none => 0
  | some h => min 1 ((h.length : ℚ) / (cfg.history_size : ℚ))

/-- The three verdicts. -/
inductive Verdict where
  | REAL
  | SPOOF
  | UNCERTAIN
deriving DecidableEq, Repr

/-- The `"type"` field of an indicator. -/
inductive IndicatorType where
  | static_scores
  | low_variance
  | natural_variance
  | static_texture
  | high_correlation
  | dynamic_texture
  | no_micro_movement
  | natural_movement
  | video_loop
deriving DecidableEq, Repr

/-- The `"reason"` strings of the source, with the interpolated numeric
value carried as data instead of being formatted to 4 or 6 decimals.
`no_micro_movements` and `natural_micro_movements` carry the variance of
the score differences (the square of the standard deviation the source
formats); the texture reasons carry the NaN-able mean correlation. -/
inductive Reason where
  | score_variance_too_low (v : ℚ)
  | low_score_variance (v : ℚ)
  | natural_score_variation (v : ℚ)
  | static_texture_pattern (c : Option ℚ)
  | high_texture_correlation (c : Option ℚ)
  | dynamic_texture_changes (c : Option ℚ)
  | no_micro_movements (vsq : ℚ)
  | natural_micro_movements (vsq : ℚ)
  | periodic_pattern (p : ℚ)
  | insufficient_evidence
deriving DecidableEq, Repr

/-- One indicator dictionary `{"type": …, "confidence": …, "reason": …}`. -/
structure Indicator where
  type : IndicatorType
  confidence : ℚ
  reason : Reason
deriving DecidableEq, Repr

/-- The `analysis` dictionary built by a full run of
`analyze_temporal_pattern` (each optional field models a key that is set
only on some paths).  `micro_movement_std_sq` holds the square of the
source's `movement_std`; `texture_correlation`'s inner `none` is NaN. -/
structure FullAnalysis where
  real_variance : ℚ
  fake_variance : ℚ
  mean_real_score : ℚ
  mean_fake_score : ℚ
  texture_correlation : Option (Option ℚ)
  micro_movement_std_sq : Option ℚ
  periodicity : Option ℚ
  spoof_indicators : List Indicator
  real_indicators : List Indicator
  decision_reason : Reason
deriving DecidableEq, Repr

/-- The third component of the returned triple: either the short
`{"reason": "insufficient_history"}` dictionary or the full analysis. -/
inductive AnalysisDetails where
  | insufficientHistory
  | full (a : FullAnalysis)
deriving DecidableEq, Repr

/-- STRATEGY 1 (score variance): the two `if`/`elif` spoof branches and the
independent real-indicator branch, on the precomputed variance and mean of
the real scores. -/
def scoreVarianceDetector (cfg : Config) (real_variance mean_real_score : ℚ) :
    List Indicator × List Indicator :=
  let spoof :=
    if real_variance < cfg.score_variance_threshold * 0.5 ∧ mean_real_score > 0.6 then
      [{ type := .static_scores, confidence := 0.95
         reason := .score_variance_too_low real_variance }]
    else if real_variance < cfg.score_variance_threshold ∧ mean_real_score > 0.7 then
      [{ type := .low_variance, confidence := 0.85
         reason := .low_score_variance real_variance }]
    else []
  let real :=
    if real_variance > cfg.score_variance_threshold * 1.5 then
      [{ type := .natural_variance, confidence := 0.80
         reason := .natural_score_variation real_variance }]
    else []
  (spoof, real)

/-- Exact rational square root: the nonnegative `r` with `r ^ 2 = q` when
one exists in `ℚ`, else `0`.  Used only inside `corrcoef01`; every input
this development evaluates it on is a perfect rational square, so the
embedding agrees with the real-valued source there. -/
def ratSqrt (q : ℚ) : ℚ :=
  if 0 ≤ q.num ∧ Nat.sqrt q.num.natAbs ^ 2 = q.num.natAbs ∧
      Nat.sqrt q.den ^ 2 = q.den then
    (Nat.sqrt q.num.natAbs : ℚ) / (Nat.sqrt q.den : ℚ)
  else 0

/-- Sum of products of centered entries (`Σ (xᵢ - x̄)(yᵢ - ȳ)` over the
zipped prefix). -/
def centeredDot (x y : List ℚ) : ℚ :=
  ((x.zip y).map fun p => (p.1 - listMean x) * (p.2 - listMean y)).sum

/-- Entry `[0, 1]` of `np.corrcoef(x, y)`.
`.error ()` models a raised exception (mismatched lengths, the only way the
source's bare `except` fires); `.ok none` models NaN, which numpy returns
with a warning — not an exception — when either vector has zero variance
(this includes empty vectors); otherwise the Pearson coefficient
`Sxy / sqrt (Sxx * Syy)`, exact whenever `Sxx * Syy` is a perfect rational
square. -/
def corrcoef01 (x y : List ℚ) : Except Unit (Option ℚ) :=
  if x.length ≠ y.length then .error ()
  else
    let sxx := centeredDot x x
    let syy := centeredDot y y
    if sxx = 0 ∨ syy = 0 then .ok none
    else .ok (some (centeredDot x y / ratSqrt (sxx * syy)))

/-- NaN-propagating mean of the collected correlations: NaN if any entry is
NaN, else the exact mean. -/
def nanMean (xs : List (Option ℚ)) : Option ℚ :=
  if xs.all Option.isSome then some (listMean (xs.filterMap id)) else none

/-- `x > t` where `x` may be NaN (`nan > t` is `False` in Python). -/
def nanGT (x : Option ℚ) (t : ℚ) : Bool :=
  match x with
  | none => false
  | some v => t < v

/-- `x < t` where `x` may be NaN. -/
def nanLT (x : Option ℚ) (t : ℚ) : Bool :=
  match x with
  | none => false
  | some v => v < t

/-- The correlations the STRATEGY 2 loop collects: one entry per
consecutive pair of texture vectors, raised computations skipped by the
`except: pass`, NaN results appended like any other value. -/
def collectCorrelations (texture_list : List (List ℚ)) : List (Option ℚ) :=
  (texture_list.zip texture_list.tail).filterMap fun p =>
    match corrcoef01 p.1 p.2 with
    | .error _ => none
    | .ok c => some c

/-- STRATEGY 2 (texture correlation): requires at least 3 texture vectors;
returns the spoof indicators, real indicators and the value stored under
`analysis["texture_correlation"]` (absent when no correlation was
collected). -/
def textureDetector (cfg : Config) (texture_history : List (List ℚ)) :
    List Indicator × List Indicator × Option (Option ℚ) :=
  if texture_history.length ≥ 3 then
    let correlations := collectCorrelations texture_history
    if correlations.isEmpty then ([], [], none)
    else
      let mean_correlation := nanMean correlations
      let spoof :=
        if nanGT mean_correlation cfg.correlation_threshold then
          [{ type := .static_texture, confidence := 0.92
             reason := .static_texture_pattern mean_correlation }]
        else if nanGT mean_correlation (cfg.correlation_threshold * 0.95) then
          [{ type := .high_correlation, confidence := 0.80
             reason := .high_texture_correlation mean_correlation }]
        else []
      let real :=
        if nanLT mean_correlation 0.90 then
          [{ type := .dynamic_texture, confidence := 0.75
             reason := .dynamic_texture_changes mean_correlation }]
        else []
      (spoof, real, some mean_correlation)
  else ([], [], none)

/-- STRATEGY 3 (micro movement): requires at least 4 real scores.  The
source compares `movement_std = np.std(np.diff(real_scores))` with the
threshold; both sides of each comparison are nonnegative reals, so the
embedding compares the variance of the differences with the squared
threshold — `std < t ↔ t > 0 ∧ std² < t²` and `std > 3t ↔ 3t < 0 ∨
std² > (3t)²` for `std ≥ 0` (the source's default threshold is positive, so
the sign guards only keep the embedding faithful on degenerate
configurations).  The third component is the stored
`analysis["micro_movement_std"]`, carried as its square. -/
def microMovementDetector (cfg : Config) (real_scores : List ℚ) :
    List Indicator × List Indicator × Option ℚ :=
  if real_scores.length ≥ 4 then
    let mmVar := varP (npDiff real_scores)
    let spoof :=
      if 0 ≤ cfg.micro_movement_threshold ∧
          mmVar < cfg.micro_movement_threshold ^ 2 then
        [{ type := .no_micro_movement, confidence := 0.88
           reason := .no_micro_movements mmVar }]
      else []
    let real :=
      if cfg.micro_movement_threshold * 3 < 0 ∨
          mmVar > (cfg.micro_movement_threshold * 3) ^ 2 then
        [{ type := .natural_movement, confidence := 0.70
           reason := .natural_micro_movements mmVar }]
      else []
    (spoof, real, some mmVar)
  else ([], [], none)

/-- `Σᵢ devs[i] * devs[i + k]`: one positive-lag entry of the full
autocorrelation of `devs` with itself. -/
def autocorrLag (devs : List ℚ) (k : Nat) : ℚ :=
  ((devs.zip (devs.drop k)).map fun p => p.1 * p.2).sum

/-- `max` of a nonempty list (`0` on `[]`, unreachable where used). -/
def listMax (xs : List ℚ) : ℚ :=
  match xs with
  | [] => 0
  | x :: rest => rest.foldl max x

/-- `_detect_periodicity(scores)`.  The source centers the scores and
divides by `np.std(scores) + 1e-6`; every entry is divided by the same
positive constant, which cancels exactly in the ratio
`autocorr[k] / autocorr[0]`, so the embedding computes that ratio over the
centered scores directly (no square root needed).  On an all-equal window
the source gets `0 / 0 = NaN` for every ratio and `NaN > 0.8` is `False`;
here `0 / 0 = 0` with the same comparison outcome.  The lags kept after
`autocorr[len // 2:]` are `0 … n-1`; `autocorr[1:]` drops lag 0. -/
def detect_periodicity (scores : List ℚ) : ℚ :=
  if scores.length < 5 then 0
  else
    let m := listMean scores
    let devs := scores.map fun x => x - m
    let a0 := autocorrLag devs 0
    let autocorr := (List.range devs.length).map fun k => autocorrLag devs k / a0
    if autocorr.length > 2 then listMax (autocorr.drop 1) else 0

/-- STRATEGY 4 (pattern repetition): requires at least 5 real scores;
returns the spoof indicators and the stored `analysis["periodicity"]`. -/
def periodicityDetector (real_scores : List ℚ) :
    List Indicator × Option ℚ :=
  if real_scores.length ≥ 5 then
    let periodicity := detect_periodicity real_scores
    (if periodicity > 0.8 then
        [{ type := .video_loop, confidence := 0.90
           reason := .periodic_pattern periodicity }]
      else [],
      some periodicity)
  else ([], none)

/-- `max(ind["confidence"] for ind in inds)` with `0.0` for an empty
pool. -/
def maxConf (inds : List Indicator) : ℚ :=
  match inds with
  | [] => 0
  | i :: rest => (rest.map Indicator.confidence).foldl max i.confidence

/-- `inds[0]["reason"]`; the default is unreachable at the call sites
because the decision guards force the pool to be nonempty. -/
def headReason (inds : List Indicator) : Reason :=
  match inds with
  | [] => .insufficient_evidence
  | i :: _ => i.reason

/-- The decision block at the end of `analyze_temporal_pattern`: aggregate
confidences and pick the verdict, its confidence, and the
`"decision_reason"` value. -/
def makeDecision (spoof_indicators real_indicators : List Indicator) :
    Verdict × ℚ × Reason :=
  let spoof_confidence := maxConf spoof_indicators
  let real_confidence := maxConf real_indicators
  if spoof_confidence > real_confidence ∧ spoof_confidence > 0.80 then
    (Verdict.SPOOF, spoof_confidence, headReason spoof_indicators)
  else if real_confidence > spoof_confidence ∧ real_confidence > 0.70 then
    (Verdict.REAL, real_confidence, headReason real_indicators)
  else
    (Verdict.UNCERTAIN, 0.5, Reason.insufficient_evidence)

/-- `analyze_temporal_pattern(track_id, current_real_score,
current_fake_score)`.  The method only reads `self`, so its embedding
returns the result triple together with the unchanged state.  The current
score arguments appear in the signature (as in the source) and, as in the
source, are never read. -/
def analyze_temporal_pattern (cfg : Config) (s : AnalyzerState) (tid : Nat)
    (current_real_score current_fake_score : ℚ) :
    (Verdict × ℚ × AnalysisDetails) × AnalyzerState :=
  if (scOf s tid).length < 3 then
    ((.UNCERTAIN, 0.5, .insufficientHistory), s)
  else
    let score_history := scOf s tid
    let texture_history := txOf s tid
    let real_scores := score_history.map ScoreEntry.real_score
    let fake_scores := score_history.map ScoreEntry.fake_score
    let real_variance := varP real_scores
    let mean_real_score := listMean real_scores
    let sv := scoreVarianceDetector cfg real_variance mean_real_score
    let tx := textureDetector cfg texture_history
    let mm := microMovementDetector cfg real_scores
    let pd := periodicityDetector real_scores
    let spoof_indicators := sv.1 ++ tx.1 ++ mm.1 ++ pd.1
    let real_indicators := sv.2 ++ tx.2.1 ++ mm.2.1
    let decision := makeDecision spoof_indicators real_indicators
    ((decision.1, decision.2.1,
      .full
        { real_variance := real_variance
          fake_variance := varP fake_scores
          mean_real_score := mean_real_score
          mean_fake_score := listMean fake_scores
          texture_correlation := tx.2.2
          micro_movement_std_sq := mm.2.2
          periodicity := pd.2
          spoof_indicators := spoof_indicators
          real_indicators := real_indicators
          decision_reason := decision.2.2 }), s)

/-- Modelled from the spec: the texture-correlation detector as §4.3(b)
describes it, where "a pair whose correlation computation fails — e.g.,
zero-variance vector — is silently skipped, not treated as an error": every
pair without a finite correlation value (raised computation or NaN) is
dropped before the mean is taken.  Declared only to compare against the
source-embedded `textureDetector`. -/
def textureDetectorSpec (cfg : Config) (texture_history : List (List ℚ)) :
    List Indicator × List Indicator × Option (Option ℚ) :=
  if texture_history.length ≥ 3 then
    let correlations :=
      (texture_history.zip texture_history.tail).filterMap fun p =>
        match corrcoef01 p.1 p.2 with
        | .ok (some c) => some c
        | _ => none
    if correlations.isEmpty then ([], [], none)
    else
      let mean_correlation : Option ℚ := some (listMean correlations)
      let spoof :=
        if nanGT mean_correlation cfg.correlation_threshold then
          [{ type := .static_texture, confidence := 0.92
             reason := .static_texture_pattern mean_correlation }]
        else if nanGT mean_correlation (cfg.correlation_threshold * 0.95) then
          [{ type := .high_correlation, confidence := 0.80
             reason := .high_texture_correlation mean_correlation }]
        else []
      let real :=
        if nanLT mean_correlation 0.90 then
          [{ type := .dynamic_texture, confidence := 0.75
             reason := .dynamic_texture_changes mean_correlation }]
        else []
      (spoof, real, some mean_correlation)
  else ([], [], none)

/-- Per-track well-formedness: the track is keyed in either all or none of
the three dictionaries, its timestamps are nondecreasing (each is a
`time.time()` reading taken at append time), scores and timestamps are in
lockstep, and the texture deque respects its bounds.  Every state reachable
from the freshly constructed analyzer through the class methods satisfies
this. -/
abbrev TrackWF (cfg : Config) (s : AnalyzerState) (tid : Nat) : Prop :=
  ((lookupD s.score_history tid).isSome ↔ (lookupD s.timestamp_history tid).isSome) ∧
  ((lookupD s.score_history tid).isSome ↔ (lookupD s.texture_history tid).isSome) ∧
  (tsOf s tid).Pairwise (· ≤ ·) ∧
  (scOf s tid).length = (tsOf s tid).length ∧
  (txOf s tid).length ≤ (scOf s tid).length ∧
  (txOf s tid).length ≤ cfg.history_size

/-- Key lists of the three dictionaries are duplicate-free — automatic for
Python dicts, an invariant of the association-list model. -/
abbrev StoreKeysNodup (s : AnalyzerState) : Prop :=
  (s.score_history.map Prod.fst).Nodup ∧
  (s.texture_history.map Prod.fst).Nodup ∧
  (s.timestamp_history.map Prod.fst).Nodup

/-- A track window holding three identical high-real-score frames: the
`static_scores` spoof path. -/
def stStatic : AnalyzerState :=
  { score_history :=
      [(1, [{ real_score := 0.95, fake_score := 0.05 },
            { real_score := 0.95, fake_score := 0.05 },
            { real_score := 0.95, fake_score := 0.05 }])]
    texture_history := [(1, [])]
    timestamp_history := [(1, [0, 0.01, 0.02])] }

/-- A track window holding the repeating two-value score pattern
`[0.5, 0.9, 0.5, 0.9, 0.5]` of the periodic-replay scenario. -/
def stPeriodic : AnalyzerState :=
  { score_history :=
      [(1, [{ real_score := 0.5, fake_score := 0.5 },
            { real_score := 0.9, fake_score := 0.1 },
            { real_score := 0.5, fake_score := 0.5 },
            { real_score := 0.9, fake_score := 0.1 },
            { real_score := 0.5, fake_score := 0.5 }])]
    texture_history := [(1, [])]
    timestamp_history := [(1, [0, 0.01, 0.02, 0.03, 0.04])] }

/-- Three texture vectors whose middle pair is perfectly correlated and
whose last vector is constant: the last consecutive pair has a
zero-variance member, so `np.corrcoef` yields NaN for it. -/
def texWithDegenerate : List (List ℚ) := [[0, 1], [0, 1], [1, 1]]

/-- Three texture vectors whose second consecutive pair has mismatched
lengths, so its correlation computation raises and the bare `except`
skips it; the first pair is perfectly anti-correlated. -/
def texWithRaise : List (List ℚ) := [[0, 1], [1, 0], [0, 1, 7]]

/-- The full analysis record `analyze_temporal_pattern` produces on
`stStatic` (three frozen `0.95` scores). -/
def anStatic : FullAnalysis :=
  { real_variance := 0
    fake_variance := 0
    mean_real_score := 0.95
    mean_fake_score := 0.05
    texture_correlation := none
    micro_movement_std_sq := none
    periodicity := none
    spoof_indicators :=
      [{ type := .static_scores, confidence := 0.95
         reason := .score_variance_too_low 0 }]
    real_indicators := []
    decision_reason := .score_variance_too_low 0 }

/-- `stStatic` with its three timestamps far in the past (all older than
any reasonable `history_timeout` relative to `now = 0`). -/
def stStaticOld : AnalyzerState :=
  { stStatic with timestamp_history := [(1, [-50, -49, -48])] }

/-- A store holding two tracks, for the `clear_track` isolation checks. -/
def stTwo : AnalyzerState :=
  { score_history :=
      [(1, [{ real_score := 0.95, fake_score := 0.05 }]),
       (2, [{ real_score := 0.2, fake_score := 0.8 }])]
    texture_history := [(1, []), (2, [[1, 2]])]
    timestamp_history := [(1, [0]), (2, [0])] }

/-- `analyze_temporal_pattern` threads its state back unchanged: no branch
of the body writes to any of the three dictionaries. -/
theorem analyze_snd (cfg : Config) (s : AnalyzerState) (tid : Nat) (a b : ℚ) :
    (analyze_temporal_pattern cfg s tid a b).2 = s := by
  unfold analyze_temporal_pattern
  split <;> rfl

/-- Claim C2: for every track whose stored score window holds fewer than 3
entries — in particular for a track the store does not know, whose window
reads back empty — `analyze_temporal_pattern` short-circuits to
`UNCERTAIN` with confidence exactly `0.5` and the bare
`{"reason": "insufficient_history"}` detail record, so no detector output
appears in the result. -/
theorem analyze_insufficient_history (cfg : Config) (s : AnalyzerState)
    (tid : Nat) (a b : ℚ) (h : (scOf s tid).length < 3) :
    (analyze_temporal_pattern cfg s tid a b).1 =
      (Verdict.UNCERTAIN, 0.5, AnalysisDetails.insufficientHistory) := by
  unfold analyze_temporal_pattern
  rw [if_pos h]

/-- Witness for C2: the freshly constructed analyzer knows no track `7`. -/
theorem analyze_insufficient_history_witness :
    (scOf initState 7).length < 3 ∧
    (analyze_temporal_pattern defaultConfig initState 7 0.9 0.1).1 =
      (Verdict.UNCERTAIN, 0.5, AnalysisDetails.insufficientHistory) :=
  ⟨by with_unfolding_all decide,
   analyze_insufficient_history defaultConfig initState 7 0.9 0.1
     (by with_unfolding_all decide)⟩

/-- Claim C9: the result of `analyze_temporal_pattern` does not depend on
`current_real_score` or `current_fake_score`; the source binds both
parameters and never reads them, so the embedded body contains no
occurrence of either. -/
theorem analyze_ignores_current_scores (cfg : Config) (s : AnalyzerState)
    (tid : Nat) (a b a₂ b₂ : ℚ) :
    analyze_temporal_pattern cfg s tid a b =
      analyze_temporal_pattern cfg s tid a₂ b₂ := rfl

/-- Claim C10: `analyze_temporal_pattern` hands its store back unchanged,
and both it and `get_track_stability` read only the score and texture
dictionaries — two stores agreeing on those two dictionaries produce the
same analysis and the same stability no matter what the timestamp
dictionary holds, so `history_timeout` eviction is never applied by either
call and arbitrarily old entries keep counting toward the window. -/
theorem analyze_and_stability_read_only (cfg : Config) (s₁ s₂ : AnalyzerState)
    (tid : Nat) (a b : ℚ)
    (hsc : s₁.score_history = s₂.score_history)
    (htx : s₁.texture_history = s₂.texture_history) :
    (analyze_temporal_pattern cfg s₁ tid a b).2 = s₁ ∧
    (analyze_temporal_pattern cfg s₁ tid a b).1 =
      (analyze_temporal_pattern cfg s₂ tid a b).1 ∧
    get_track_stability cfg s₁ tid = get_track_stability cfg s₂ tid := by
  obtain ⟨x₁, y₁, z₁⟩ := s₁
  obtain ⟨x₂, y₂, z₂⟩ := s₂
  dsimp only at hsc htx
  subst hsc
  subst htx
  refine ⟨analyze_snd _ _ _ _ _, ?_, rfl⟩
  unfold analyze_temporal_pattern
  dsimp only [scOf, txOf]
  split <;> rfl

/-- Witness for C10: shifting every timestamp of `stStatic` into the
distant past changes neither the analysis nor the stability. -/
theorem analyze_and_stability_read_only_witness :
    (analyze_temporal_pattern defaultConfig stStaticOld 1 0.95 0.05).2 = stStaticOld ∧
    (analyze_temporal_pattern defaultConfig stStaticOld 1 0.95 0.05).1 =
      (analyze_temporal_pattern defaultConfig stStatic 1 0.95 0.05).1 ∧
    get_track_stability defaultConfig stStaticOld 1 =
      get_track_stability defaultConfig stStatic 1 :=
  analyze_and_stability_read_only defaultConfig stStaticOld stStatic 1 0.95 0.05
    (by with_unfolding_all decide) (by with_unfolding_all decide)

/-- Claim C7: `get_track_stability` is `0` on unknown tracks and
`min 1 (window_length / history_size)` on known ones; that value sits in
`[0, 1]` and reaches `1` exactly as prescribed once the window holds
`history_size` entries. -/
theorem get_track_stability_spec (cfg : Config) (s : AnalyzerState)
    (tid : Nat) (hH : 0 < cfg.history_size) :
    (lookupD s.score_history tid = none → get_track_stability cfg s tid = 0) ∧
    (∀ h, lookupD s.score_history tid = some h →
      get_track_stability cfg s tid =
        min 1 ((h.length : ℚ) / (cfg.history_size : ℚ)) ∧
      0 ≤ get_track_stability cfg s tid ∧
      get_track_stability cfg s tid ≤ 1 ∧
      (h.length = cfg.history_size → get_track_stability cfg s tid = 1)) := by
  constructor
  · intro hnone
    unfold get_track_stability
    rw [hnone]
  · intro h hsome
    have hpos : (0 : ℚ) < (cfg.history_size : ℚ) := by exact_mod_cast hH
    have hform : get_track_stability cfg s tid =
        min 1 ((h.length : ℚ) / (cfg.history_size : ℚ)) := by
      unfold get_track_stability
      rw [hsome]
    refine ⟨hform, ?_, ?_, ?_⟩
    · rw [hform]
      have : (0 : ℚ) ≤ (h.length : ℚ) / (cfg.history_size : ℚ) :=
        div_nonneg (by positivity) (le_of_lt hpos)
      simp [le_min_iff, this]
    · rw [hform]
      exact min_le_left _ _
    · intro hlen
      rw [hform, hlen, div_self (ne_of_gt hpos)]
      simp
/-- Witness for C7: with the default `history_size = 5`, track `1` of
`stStatic` (3 entries) has stability `3 / 5` and unknown track `9` has
stability `0`. -/
theorem get_track_stability_spec_witness :
    0 < defaultConfig.history_size ∧
    get_track_stability defaultConfig stStatic 9 = 0 ∧
    get_track_stability defaultConfig stStatic 1 =
      min 1 ((([{ real_score := (0.95 : ℚ), fake_score := 0.05 },
                { real_score := 0.95, fake_score := 0.05 },
                { real_score := 0.95, fake_score := 0.05 }] : List ScoreEntry).length : ℚ) /
        (defaultConfig.history_size : ℚ)) :=
  ⟨by with_unfolding_all decide,
   (get_track_stability_spec defaultConfig stStatic 9
      (by with_unfolding_all decide)).1 (by with_unfolding_all decide),
   ((get_track_stability_spec defaultConfig stStatic 1
      (by with_unfolding_all decide)).2 _ (by with_unfolding_all decide)).1⟩

/-- Looking up any other key is unaffected by `eraseD`. -/
theorem lookupD_eraseD_ne {α : Type} (d : List (Nat × α)) (k k₂ : Nat)
    (h : k₂ ≠ k) : lookupD (eraseD d k) k₂ = lookupD d k₂ := by
  induction d with
  | nil => rfl
  | cons p rest ih =>
    obtain ⟨k₃, v⟩ := p
    by_cases hk : k₃ = k
    · subst hk
      simp [eraseD, lookupD, Ne.symm h]
    · by_cases hk₂ : k₃ = k₂ <;> simp [eraseD, lookupD, hk, hk₂, ih, h]

/-- Erasing an absent key is a no-op. -/
theorem eraseD_of_lookupD_none {α : Type} (d : List (Nat × α)) (k : Nat)
    (h : lookupD d k = none) : eraseD d k = d := by
  induction d with
  | nil => rfl
  | cons p rest ih =>
    obtain ⟨k₃, v⟩ := p
    by_cases hk : k₃ = k
    · simp [lookupD, hk] at h
    · simp only [eraseD, if_neg hk]
      rw [ih]
      simpa [lookupD, hk] using h

/-- A key outside the key list looks up to `none`. -/
theorem lookupD_eq_none_of_not_mem {α : Type} (d : List (Nat × α)) (k : Nat)
    (h : k ∉ d.map Prod.fst) : lookupD d k = none := by
  induction d with
  | nil => rfl
  | cons p rest ih =>
    obtain ⟨k₃, v⟩ := p
    simp only [List.map_cons, List.mem_cons] at h
    push_neg at h
    have hne : ¬k₃ = k := fun hc => h.1 hc.symm
    simp [lookupD, hne, ih h.2]

/-- On duplicate-free keys, the erased key is gone. -/
theorem lookupD_eraseD_self {α : Type} (d : List (Nat × α)) (k : Nat)
    (h : (d.map Prod.fst).Nodup) : lookupD (eraseD d k) k = none := by
  induction d with
  | nil => rfl
  | cons p rest ih =>
    obtain ⟨k₃, v⟩ := p
    simp only [List.map_cons, List.nodup_cons] at h
    by_cases hk : k₃ = k
    · subst hk
      simp only [eraseD, if_pos rfl]
      exact lookupD_eq_none_of_not_mem rest k₃ h.1
    · simp [eraseD, lookupD, hk, ih h.2]

/-- The guarded `del` of `clear_track`, applied twice to one dictionary, is
the same as applying it once. -/
theorem eraseGuard_idem {α : Type} (d : List (Nat × α)) (k : Nat)
    (h : (d.map Prod.fst).Nodup) :
    (if (lookupD (if (lookupD d k).isSome then eraseD d k else d) k).isSome then
        eraseD (if (lookupD d k).isSome then eraseD d k else d) k
      else if (lookupD d k).isSome then eraseD d k else d) =
      if (lookupD d k).isSome then eraseD d k else d := by
  by_cases hk : (lookupD d k).isSome
  · simp [hk, lookupD_eraseD_self d k h]
  · simp [hk]

/-- Claim C8: `clear_track` is idempotent — on a store (with duplicate-free
key lists, as every Python dict has) where the identifier is absent from
all three dictionaries it changes nothing, a second `clear_track` of the
same identifier after a first is a no-op, and any `clear_track` leaves the
buffers of every other track identifier untouched. -/
theorem clear_track_idempotent (s : AnalyzerState) (tid : Nat)
    (hnd : StoreKeysNodup s) :
    (lookupD s.score_history tid = none →
     lookupD s.texture_history tid = none →
     lookupD s.timestamp_history tid = none →
       clear_track s tid = s) ∧
    clear_track (clear_track s tid) tid = clear_track s tid ∧
    (∀ k, k ≠ tid →
      lookupD (clear_track s tid).score_history k = lookupD s.score_history k ∧
      lookupD (clear_track s tid).texture_history k = lookupD s.texture_history k ∧
      lookupD (clear_track s tid).timestamp_history k = lookupD s.timestamp_history k) := by
  obtain ⟨nd₁, nd₂, nd₃⟩ := hnd
  refine ⟨?_, ?_, ?_⟩
  · intro h₁ h₂ h₃
    simp [clear_track, h₁, h₂, h₃]
  · unfold clear_track
    dsimp only
    rw [eraseGuard_idem s.score_history tid nd₁,
      eraseGuard_idem s.texture_history tid nd₂,
      eraseGuard_idem s.timestamp_history tid nd₃]
  · intro k hk
    unfold clear_track
    dsimp only
    refine ⟨?_, ?_, ?_⟩ <;>
      · split
        · exact lookupD_eraseD_ne _ tid k hk
        · rfl

/-- Witness for C8: clearing track `1` of the two-track store twice equals
clearing it once, track `2` is untouched, and clearing the already-absent
track `3` changes nothing. -/
theorem clear_track_idempotent_witness :
    StoreKeysNodup stTwo ∧
    clear_track (clear_track stTwo 1) 1 = clear_track stTwo 1 ∧
    lookupD (clear_track stTwo 1).score_history 2 = lookupD stTwo.score_history 2 ∧
    clear_track stTwo 3 = stTwo :=
  ⟨by with_unfolding_all decide,
   (clear_track_idempotent stTwo 1 (by with_unfolding_all decide)).2.1,
   ((clear_track_idempotent stTwo 1 (by with_unfolding_all decide)).2.2 2
     (by decide)).1,
   (clear_track_idempotent stTwo 3 (by with_unfolding_all decide)).1
     (by with_unfolding_all decide) (by with_unfolding_all decide)
     (by with_unfolding_all decide)⟩

/-- Case characterization of the decision block. -/
theorem makeDecision_spec (sp rl : List Indicator) :
    ((maxConf sp > maxConf rl ∧ maxConf sp > 0.80) →
      makeDecision sp rl = (Verdict.SPOOF, maxConf sp, headReason sp)) ∧
    (¬(maxConf sp > maxConf rl ∧ maxConf sp > 0.80) →
      (maxConf rl > maxConf sp ∧ maxConf rl > 0.70) →
      makeDecision sp rl = (Verdict.REAL, maxConf rl, headReason rl)) ∧
    (¬(maxConf sp > maxConf rl ∧ maxConf sp > 0.80) →
      ¬(maxConf rl > maxConf sp ∧ maxConf rl > 0.70) →
      makeDecision sp rl = (Verdict.UNCERTAIN, 0.5, Reason.insufficient_evidence)) := by
  unfold makeDecision
  refine ⟨fun h₁ => ?_, fun h₁ h₂ => ?_, fun h₁ h₂ => ?_⟩
  · rw [if_pos h₁]
  · rw [if_neg h₁, if_pos h₂]
  · rw [if_neg h₁, if_neg h₂]

/-- On a window of at least 3 entries, the analysis result decomposes into
the full analysis record together with `makeDecision` of its two indicator
pools. -/
theorem analyze_full_decomposition (cfg : Config) (s : AnalyzerState)
    (tid : Nat) (a b : ℚ) (an : FullAnalysis)
    (han : (analyze_temporal_pattern cfg s tid a b).1.2.2 = .full an) :
    (analyze_temporal_pattern cfg s tid a b).1.1 =
      (makeDecision an.spoof_indicators an.real_indicators).1 ∧
    (analyze_temporal_pattern cfg s tid a b).1.2.1 =
      (makeDecision an.spoof_indicators an.real_indicators).2.1 ∧
    an.decision_reason =
      (makeDecision an.spoof_indicators an.real_indicators).2.2 := by
  by_cases hlt : (scOf s tid).length < 3
  · unfold analyze_temporal_pattern at han
    rw [if_pos hlt] at han
    simp at han
  · unfold analyze_temporal_pattern at han ⊢
    rw [if_neg hlt] at han ⊢
    simp only [AnalysisDetails.full.injEq] at han
    subst han
    exact ⟨rfl, rfl, rfl⟩

/-- Claim C1: whenever `analyze_temporal_pattern` produces indicator pools
(a full analysis record), with `spoof_confidence`/`real_confidence` the
maxima over the stored pools (`maxConf` is `0` on an empty pool), the
verdict is `SPOOF` with that confidence and the first produced spoof
indicator's rationale when `spoof_confidence > real_confidence` and
`spoof_confidence > 0.80`; else `REAL` with ` real_confidence` and the first
real indicator's rationale when `real_confidence > spoof_confidence` and
`real_confidence > 0.70`; else `UNCERTAIN` with confidence `0.5` and the
"insufficient evidence for clear decision" reason.  The pools are stored in
detector order (variance, texture, micro-movement, periodicity), so
`headReason` is the rationale of the first indicator produced. -/
theorem analyze_verdict_aggregation (cfg : Config) (s : AnalyzerState)
    (tid : Nat) (a b : ℚ) (an : FullAnalysis)
    (han : (analyze_temporal_pattern cfg s tid a b).1.2.2 = .full an) :
    ((maxConf an.spoof_indicators > maxConf an.real_indicators ∧
        maxConf an.spoof_indicators > 0.80) →
      (analyze_temporal_pattern cfg s tid a b).1.1 = Verdict.SPOOF ∧
      (analyze_temporal_pattern cfg s tid a b).1.2.1 = maxConf an.spoof_indicators ∧
      an.decision_reason = headReason an.spoof_indicators) ∧
    (¬(maxConf an.spoof_indicators > maxConf an.real_indicators ∧
        maxConf an.spoof_indicators > 0.80) →
      (maxConf an.real_indicators > maxConf an.spoof_indicators ∧
        maxConf an.real_indicators > 0.70) →
      (analyze_temporal_pattern cfg s tid a b).1.1 = Verdict.REAL ∧
      (analyze_temporal_pattern cfg s tid a b).1.2.1 = maxConf an.real_indicators ∧
      an.decision_reason = headReason an.real_indicators) ∧
    (¬(maxConf an.spoof_indicators > maxConf an.real_indicators ∧
        maxConf an.spoof_indicators > 0.80) →
      ¬(maxConf an.real_indicators > maxConf an.spoof_indicators ∧
        maxConf an.real_indicators > 0.70) →
      (analyze_temporal_pattern cfg s tid a b).1.1 = Verdict.UNCERTAIN ∧
      (analyze_temporal_pattern cfg s tid a b).1.2.1 = 0.5 ∧
      an.decision_reason = Reason.insufficient_evidence) := by
  obtain ⟨hv, hc, hr⟩ := analyze_full_decomposition cfg s tid a b an han
  obtain ⟨d₁, d₂, d₃⟩ := makeDecision_spec an.spoof_indicators an.real_indicators
  refine ⟨fun h => ?_, fun h h₂ => ?_, fun h h₂ => ?_⟩
  · rw [d₁ h] at hv hc hr
    exact ⟨hv, hc, hr⟩
  · rw [d₂ h h₂] at hv hc hr
    exact ⟨hv, hc, hr⟩
  · rw [d₃ h h₂] at hv hc hr
    exact ⟨hv, hc, hr⟩

/-- Witness for C1: `stStatic` (three frozen `0.95` scores) produces the
analysis record `anStatic`, whose only indicator is the `static_scores`
spoof indicator of confidence `0.95`; the aggregation rule then yields
verdict `SPOOF` with confidence `0.95` and that indicator's rationale. -/
theorem analyze_verdict_aggregation_witness :
    (analyze_temporal_pattern defaultConfig stStatic 1 0.95 0.05).1.2.2 =
      .full anStatic ∧
    ((analyze_temporal_pattern defaultConfig stStatic 1 0.95 0.05).1.1 =
        Verdict.SPOOF ∧
      (analyze_temporal_pattern defaultConfig stStatic 1 0.95 0.05).1.2.1 =
        maxConf anStatic.spoof_indicators ∧
      anStatic.decision_reason = headReason anStatic.spoof_indicators) :=
  ⟨by with_unfolding_all decide,
   (analyze_verdict_aggregation defaultConfig stStatic 1 0.95 0.05 anStatic
      (by with_unfolding_all decide)).1 (by with_unfolding_all decide)⟩

/-- Claim C4: on any window of at least 3 score entries, the score-variance
detector emits the `static_scores` spoof indicator (confidence `0.95`)
exactly when the population variance of the real scores is below
`score_variance_threshold * 0.5` and their mean exceeds `0.6`; failing
that, it emits the `low_variance` spoof indicator (confidence `0.85`)
exactly when the variance is below `score_variance_threshold` and the mean
exceeds `0.7`; and, independently, it emits the `natural_variance` real
indicator (confidence `0.80`) exactly when the variance exceeds
`score_variance_threshold * 1.5`. -/
theorem score_variance_detector_spec (cfg : Config) (real_scores : List ℚ)
    (h3 : 3 ≤ real_scores.length) :
    (({ type := .static_scores, confidence := 0.95,
        reason := .score_variance_too_low (varP real_scores) } : Indicator) ∈
        (scoreVarianceDetector cfg (varP real_scores) (listMean real_scores)).1 ↔
      varP real_scores < cfg.score_variance_threshold * 0.5 ∧
        listMean real_scores > 0.6) ∧
    (¬(varP real_scores < cfg.score_variance_threshold * 0.5 ∧
        listMean real_scores > 0.6) →
      (({ type := .low_variance, confidence := 0.85,
          reason := .low_score_variance (varP real_scores) } : Indicator) ∈
          (scoreVarianceDetector cfg (varP real_scores) (listMean real_scores)).1 ↔
        varP real_scores < cfg.score_variance_threshold ∧
          listMean real_scores > 0.7)) ∧
    (({ type := .natural_variance, confidence := 0.80,
        reason := .natural_score_variation (varP real_scores) } : Indicator) ∈
        (scoreVarianceDetector cfg (varP real_scores) (listMean real_scores)).2 ↔
      varP real_scores > cfg.score_variance_threshold * 1.5) := by
  refine ⟨?_, ?_, ?_⟩
  · by_cases h₁ : varP real_scores < cfg.score_variance_threshold * 0.5 ∧
        listMean real_scores > 0.6
    · simp [scoreVarianceDetector, h₁]
    · by_cases h₂ : varP real_scores < cfg.score_variance_threshold ∧
          listMean real_scores > 0.7
      · simp [scoreVarianceDetector, h₁, h₂]
      · simp [scoreVarianceDetector, h₁, h₂]
  · intro h₁
    by_cases h₂ : varP real_scores < cfg.score_variance_threshold ∧
        listMean real_scores > 0.7
    · simp [scoreVarianceDetector, h₁, h₂]
    · simp [scoreVarianceDetector, h₁, h₂]
  · by_cases h₃ : varP real_scores > cfg.score_variance_threshold * 1.5
    · simp [scoreVarianceDetector, h₃]
    · simp [scoreVarianceDetector, h₃]

/-- Witness for C4: the frozen window `[0.95, 0.95, 0.95]` has variance `0`
and mean `0.95`, and the detector fires `static_scores` on it. -/
theorem score_variance_detector_spec_witness :
    3 ≤ ([0.95, 0.95, 0.95] : List ℚ).length ∧
    (({ type := .static_scores, confidence := 0.95,
        reason := .score_variance_too_low (varP [0.95, 0.95, 0.95]) } : Indicator) ∈
        (scoreVarianceDetector defaultConfig (varP [0.95, 0.95, 0.95])
          (listMean [0.95, 0.95, 0.95])).1 ↔
      varP [0.95, 0.95, 0.95] < defaultConfig.score_variance_threshold * 0.5 ∧
        listMean [0.95, 0.95, 0.95] > 0.6) :=
  ⟨by with_unfolding_all decide,
   (score_variance_detector_spec defaultConfig [0.95, 0.95, 0.95]
      (by with_unfolding_all decide)).1⟩

set_option maxRecDepth 4000 in
/-- Counterexample to claim C5: on the repeating two-value pattern
`[0.5, 0.9, 0.5, 0.9, 0.5]` the periodicity score is exactly `17/30`
(about `0.567`), not near `1.0`: `np.correlate` sums only the overlapping
terms, so the lag-2 ratio is `68/120`.  It does not exceed the `0.8`
threshold, the periodicity detector emits nothing, and the full analysis of
the track holding that window contains no `video_loop` spoof indicator. -/
theorem periodicity_video_loop_counterexample :
    detect_periodicity [0.5, 0.9, 0.5, 0.9, 0.5] = 17/30 ∧
    ¬ detect_periodicity [0.5, 0.9, 0.5, 0.9, 0.5] > 0.8 ∧
    (periodicityDetector [0.5, 0.9, 0.5, 0.9, 0.5]).1 = [] ∧
    (analyze_temporal_pattern defaultConfig stPeriodic 1 0.5 0.5).1.2.2 =
      .full
        { real_variance := 24/625
          fake_variance := 24/625
          mean_real_score := 33/50
          mean_fake_score := 17/50
          texture_correlation := none
          micro_movement_std_sq := some (4/25)
          periodicity := some (17/30)
          spoof_indicators := []
          real_indicators :=
            [{ type := .natural_movement, confidence := 0.70
               reason := .natural_micro_movements (4/25) }]
          decision_reason := .insufficient_evidence } := by
  with_unfolding_all decide

/-- Claim C5 as amended: feeding `[0.5, 0.9, 0.5, 0.9, 0.5]` yields a
periodicity score of exactly `17/30 ≈ 0.567`, which is the lag-2 ratio
`autocorr[2] / autocorr[0]` and the maximum over all positive lags; `17/30`
does not exceed `0.8`, so `video_loop` does not fire. -/
theorem periodicity_two_value_pattern :
    detect_periodicity [0.5, 0.9, 0.5, 0.9, 0.5] = 17/30 ∧
    (let devs := [0.5, 0.9, 0.5, 0.9, 0.5].map
        fun x => x - listMean [0.5, 0.9, 0.5, 0.9, 0.5]
     autocorrLag devs 2 / autocorrLag devs 0 = 17/30 ∧
     (List.range 4).map (fun j => autocorrLag devs (j + 1) / autocorrLag devs 0) =
       [-4/5, 17/30, -2/5, 2/15]) ∧
    (17/30 : ℚ) ≤ 0.8 ∧
    (periodicityDetector [0.5, 0.9, 0.5, 0.9, 0.5]).1 = [] := by
  with_unfolding_all decide

/-- Counterexample to claim C6: in `texWithDegenerate` the last texture
vector `[1, 1]` has zero variance, so `np.corrcoef` on the last consecutive
pair returns NaN without raising — the bare `except` never fires and the
pair is NOT skipped: its NaN is appended, the mean correlation becomes NaN,
and no texture indicator is emitted at all, even though the remaining pair
correlates perfectly.  Under the spec's skip semantics
(`textureDetectorSpec`) the surviving pair's mean `1.0 > 0.97` would have
fired `static_texture`. -/
theorem texture_nan_counterexample :
    collectCorrelations texWithDegenerate = [some 1, none] ∧
    textureDetector defaultConfig texWithDegenerate = ([], [], some none) ∧
    textureDetectorSpec defaultConfig texWithDegenerate =
      ([{ type := .static_texture, confidence := 0.92
          reason := .static_texture_pattern (some 1) }], [], some (some 1)) := by
  with_unfolding_all decide

/-- Claim C6 as amended: a consecutive pair whose correlation computation
raises an exception — e.g. mismatched vector lengths, as in `texWithRaise`
— is silently skipped: it contributes nothing to the mean, is not treated
as an error, and does not prevent the detector from emitting indicators
from the remaining pairs (here the surviving anti-correlated pair drives
`dynamic_texture`).  A zero-variance pair, by contrast, yields NaN rather
than raising and is not skipped. -/
theorem texture_raise_skipped :
    collectCorrelations texWithRaise = [some (-1)] ∧
    textureDetector defaultConfig texWithRaise =
      ([], [{ type := .dynamic_texture, confidence := 0.75
              reason := .dynamic_texture_changes (some (-1)) }],
        some (some (-1))) := by
  with_unfolding_all decide

/-- Inserting then looking up the same key finds the new value. -/
theorem lookupD_insertD_self {α : Type} (d : List (Nat × α)) (k : Nat) (v : α) :
    lookupD (insertD d k v) k = some v := by
  induction d with
  | nil => simp [insertD, lookupD]
  | cons p rest ih =>
    obtain ⟨k₃, w⟩ := p
    by_cases hk : k₃ = k <;> simp [insertD, lookupD, hk, ih]

/-- A capacity-respecting append never exceeds the capacity and grows the
length by at most one. -/
theorem length_dequeAppend {α : Type} (H : Nat) (xs : List α) (x : α) :
    (dequeAppend H xs x).length = min (xs.length + 1) H := by
  simp [dequeAppend]
  omega

/-- Members of a capacity-respecting append come from the old deque or are
the new element. -/
theorem mem_dequeAppend {α : Type} (H : Nat) (xs : List α) (x y : α)
    (h : y ∈ dequeAppend H xs x) : y ∈ xs ∨ y = x := by
  have hy : y ∈ xs ++ [x] := List.drop_subset _ _ h
  simpa using hy

/-- After the eviction loop on a nondecreasing timestamp list, every
surviving timestamp is within the timeout of `now`. -/
theorem cleanLoop_fresh (timeout now : ℚ) (ts : List ℚ) (sc : List ScoreEntry)
    (tx : List (List ℚ)) (hs : ts.Pairwise (· ≤ ·)) :
    ∀ t ∈ (cleanLoop timeout now ts sc tx).1, now - t ≤ timeout := by
  induction ts generalizing sc tx with
  | nil => intro t ht; simp [cleanLoop] at ht
  | cons t₀ rest ih =>
    rw [List.pairwise_cons] at hs
    simp only [cleanLoop]
    by_cases hst : now - t₀ > timeout
    · rw [if_pos hst]
      exact ih sc.tail tx.tail hs.2
    · rw [if_neg hst]
      intro t ht
      rcases List.mem_cons.mp ht with h | h
      · subst h; linarith [not_lt.mp hst]
      · have h₁ : t₀ ≤ t := hs.1 t h
        have h₂ : now - t₀ ≤ timeout := not_lt.mp hst
        linarith

/-- The eviction loop keeps scores and timestamps in lockstep. -/
theorem cleanLoop_len_eq (timeout now : ℚ) (ts : List ℚ) (sc : List ScoreEntry)
    (tx : List (List ℚ)) (h : sc.length = ts.length) :
    (cleanLoop timeout now ts sc tx).2.1.length =
      (cleanLoop timeout now ts sc tx).1.length := by
  induction ts generalizing sc tx with
  | nil => simpa [cleanLoop] using h
  | cons t₀ rest ih =>
    simp only [List.length_cons] at h
    simp only [cleanLoop]
    split
    · exact ih sc.tail tx.tail (by simp [List.length_tail]; omega)
    · simpa using h

/-- The eviction loop preserves `textures ≤ scores`. -/
theorem cleanLoop_tx_le (timeout now : ℚ) (ts : List ℚ) (sc : List ScoreEntry)
    (tx : List (List ℚ)) (h : tx.length ≤ sc.length) :
    (cleanLoop timeout now ts sc tx).2.2.length ≤
      (cleanLoop timeout now ts sc tx).2.1.length := by
  induction ts generalizing sc tx with
  | nil => simpa [cleanLoop] using h
  | cons t₀ rest ih =>
    simp only [cleanLoop]
    split
    · exact ih sc.tail tx.tail (by simp [List.length_tail]; omega)
    · simpa using h

/-- The eviction loop never grows the texture deque. -/
theorem cleanLoop_tx_shrink (timeout now : ℚ) (ts : List ℚ) (sc : List ScoreEntry)
    (tx : List (List ℚ)) :
    (cleanLoop timeout now ts sc tx).2.2.length ≤ tx.length := by
  induction ts generalizing sc tx with
  | nil => simp [cleanLoop]
  | cons t₀ rest ih =>
    simp only [cleanLoop]
    split
    · calc (cleanLoop timeout now rest sc.tail tx.tail).2.2.length
          ≤ tx.tail.length := ih sc.tail tx.tail
        _ ≤ tx.length := by simp [List.length_tail]
    · simp

/-- On a well-formed track, one `update_history` call leaves the track's
three buffers exactly as the eviction loop followed by the capacity-bounded
appends computes them (in the lazily-initializing branch all three windows
read back empty beforehand, so the formula covers both branches). -/
theorem update_history_run (cfg : Config) (s : AnalyzerState) (tid : Nat)
    (r f : ℚ) (tex : Option (List ℚ)) (now : ℚ) (hwf : TrackWF cfg s tid) :
    scOf (update_history cfg s tid r f tex now) tid =
      dequeAppend cfg.history_size
        (cleanLoop cfg.history_timeout now (tsOf s tid) (scOf s tid) (txOf s tid)).2.1
        { real_score := r, fake_score := f } ∧
    tsOf (update_history cfg s tid r f tex now) tid =
      dequeAppend cfg.history_size
        (cleanLoop cfg.history_timeout now (tsOf s tid) (scOf s tid) (txOf s tid)).1
        now ∧
    txOf (update_history cfg s tid r f tex now) tid =
      (match tex with
       | none =>
          (cleanLoop cfg.history_timeout now (tsOf s tid) (scOf s tid) (txOf s tid)).2.2
       | some t =>
          dequeAppend cfg.history_size
            (cleanLoop cfg.history_timeout now
              (tsOf s tid) (scOf s tid) (txOf s tid)).2.2 t) := by
  obtain ⟨hiff₁, hiff₂, hsort, hlen, htxle, htxH⟩ := hwf
  by_cases h0 : (lookupD s.score_history tid).isSome
  · obtain ⟨sc₀, hsc₀⟩ := Option.isSome_iff_exists.mp h0
    obtain ⟨ts₀, hts₀⟩ := Option.isSome_iff_exists.mp (hiff₁.mp h0)
    obtain ⟨tx₀, htx₀⟩ := Option.isSome_iff_exists.mp (hiff₂.mp h0)
    rcases tex with _ | t <;>
      simp [update_history, clean_old_entries, scOf, txOf, tsOf,
        hsc₀, hts₀, htx₀, lookupD_insertD_self]
  · have hC : lookupD s.timestamp_history tid = none := by
      cases hC2 : lookupD s.timestamp_history tid with
      | none => rfl
      | some w =>
          exact absurd (hiff₁.mpr (by simp [hC2])) h0
    have hB : lookupD s.texture_history tid = none := by
      cases hB2 : lookupD s.texture_history tid with
      | none => rfl
      | some w =>
          exact absurd (hiff₂.mpr (by simp [hB2])) h0
    have hA : lookupD s.score_history tid = none := by
      cases hA2 : lookupD s.score_history tid with
      | none => rfl
      | some w => exact absurd (by simp [hA2]) h0
    rcases tex with _ | t <;>
      simp [update_history, clean_old_entries, scOf, txOf, tsOf,
        hA, hB, hC, lookupD_insertD_self, cleanLoop]

/-- Claim C3: after any `update_history` call at time `now` on a
well-formed track with nondecreasing stored timestamps, every remaining
timestamp `t` of that track satisfies `now - t ≤ history_timeout`, none of
the three buffers exceeds `history_size`, scores and timestamps have equal
length, and the texture buffer is no longer than the score buffer. -/
theorem update_history_invariants (cfg : Config) (s : AnalyzerState)
    (tid : Nat) (r f : ℚ) (tex : Option (List ℚ)) (now : ℚ)
    (hwf : TrackWF cfg s tid) (htm : 0 ≤ cfg.history_timeout) :
    (∀ t ∈ tsOf (update_history cfg s tid r f tex now) tid,
      now - t ≤ cfg.history_timeout) ∧
    (tsOf (update_history cfg s tid r f tex now) tid).length ≤ cfg.history_size ∧
    (scOf (update_history cfg s tid r f tex now) tid).length ≤ cfg.history_size ∧
    (txOf (update_history cfg s tid r f tex now) tid).length ≤ cfg.history_size ∧
    (scOf (update_history cfg s tid r f tex now) tid).length =
      (tsOf (update_history cfg s tid r f tex now) tid).length ∧
    (txOf (update_history cfg s tid r f tex now) tid).length ≤
      (scOf (update_history cfg s tid r f tex now) tid).length := by
  obtain ⟨e₁, e₂, e₃⟩ := update_history_run cfg s tid r f tex now hwf
  obtain ⟨hiff₁, hiff₂, hsort, hlen, htxle, htxH⟩ := hwf
  set res := cleanLoop cfg.history_timeout now (tsOf s tid) (scOf s tid) (txOf s tid)
    with hres
  have l₁ : res.2.1.length = res.1.length :=
    cleanLoop_len_eq _ _ _ _ _ hlen
  have l₂ : res.2.2.length ≤ res.2.1.length :=
    cleanLoop_tx_le _ _ _ _ _ htxle
  have l₃ : res.2.2.length ≤ (txOf s tid).length :=
    cleanLoop_tx_shrink _ _ _ _ _
  refine ⟨?_, ?_, ?_, ?_, ?_, ?_⟩
  · intro t ht
    rw [e₂] at ht
    rcases mem_dequeAppend _ _ _ _ ht with h | h
    · exact cleanLoop_fresh _ _ _ _ _ hsort t h
    · rw [h, sub_self]; exact htm
  · rw [e₂, length_dequeAppend]; omega
  · rw [e₁, length_dequeAppend]; omega
  · cases tex with
    | none =>
        dsimp only at e₃
        rw [e₃]; omega
    | some t =>
        dsimp only at e₃
        rw [e₃, length_dequeAppend]; omega
  · rw [e₁, e₂, length_dequeAppend, length_dequeAppend]; omega
  · cases tex with
    | none =>
        dsimp only at e₃
        rw [e₁, e₃, length_dequeAppend]; omega
    | some t =>
        dsimp only at e₃
        rw [e₁, e₃, length_dequeAppend, length_dequeAppend]; omega

/-- Witness for C3: updating track `1` of `stStaticOld` — whose three
stored timestamps all lie far beyond the default one-second timeout
relative to `now = 0` — evicts them all and leaves a single fresh entry. -/
theorem update_history_invariants_witness :
    TrackWF defaultConfig stStaticOld 1 ∧
    (0 : ℚ) ≤ defaultConfig.history_timeout ∧
    ((tsOf (update_history defaultConfig stStaticOld 1 0.8 0.2 none 0) 1).length ≤
        defaultConfig.history_size ∧
      (scOf (update_history defaultConfig stStaticOld 1 0.8 0.2 none 0) 1).length ≤
        defaultConfig.history_size ∧
      (txOf (update_history defaultConfig stStaticOld 1 0.8 0.2 none 0) 1).length ≤
        defaultConfig.history_size ∧
      (scOf (update_history defaultConfig stStaticOld 1 0.8 0.2 none 0) 1).length =
        (tsOf (update_history defaultConfig stStaticOld 1 0.8 0.2 none 0) 1).length ∧
      (txOf (update_history defaultConfig stStaticOld 1 0.8 0.2 none 0) 1).length ≤
        (scOf (update_history defaultConfig stStaticOld 1 0.8 0.2 none 0) 1).length) :=
  ⟨by with_unfolding_all decide, by with_unfolding_all decide,
   (update_history_invariants defaultConfig stStaticOld 1 0.8 0.2 none 0
     (by with_unfolding_all decide) (by with_unfolding_all decide)).2⟩
